import Mathlib

/-!
Verification of the khatabook ledger web application (`src/main.py`).

The application is shallow-embedded: the SQLite tables become lists of
records, the request handlers become pure functions from a store and a
request to a new store and a response, and the JWT session machinery is
modelled with an executable token format (a payload body plus a keyed
MAC) that mirrors the control flow of `python-jose`'s encode/decode.
Amounts (SQL `REAL`) are modelled as rationals, timestamps as naturals.
-/

set_option maxRecDepth 8000

namespace Khatabook

/-- A row of the `customers` table (`src/main.py` lines 51-57). -/
structure Customer where
  id : Nat
  name : String
  phone : String
deriving Repr, DecidableEq

/-- A row of the `transactions` table (`src/main.py` lines 58-68).
The column `type` holds the kind string (`"GAVE"` / `"GOT"`). -/
structure Txn where
  id : Nat
  customer_id : Nat
  amount : ℚ
  type : String
  description : String
  date : Nat
deriving Repr, DecidableEq

/-- The persistent state of `khatabook.db`: the two tables plus the
`AUTOINCREMENT` counters for their integer primary keys. -/
structure Store where
  customers : List Customer
  transactions : List Txn
  nextCustomerId : Nat
  nextTxnId : Nat
deriving Repr, DecidableEq

/-- `SELECT SUM(amount) FROM ...` over a list of transaction rows, with
SQL's `NULL`-on-empty collapsed to `0` exactly as the `or 0.0` in
`get_customer_balance` does. -/
def sumAmounts (ts : List Txn) : ℚ :=
  (ts.map fun t => t.amount).sum

/-- `get_customer_balance` (`src/main.py` lines 103-111): the sum of the
customer's `GAVE` amounts minus the sum of its `GOT` amounts. -/
def get_customer_balance (st : Store) (customer_id : Nat) : ℚ :=
  let gave := sumAmounts (st.transactions.filter fun t =>
    t.customer_id == customer_id && t.type == "GAVE")
  let got := sumAmounts (st.transactions.filter fun t =>
    t.customer_id == customer_id && t.type == "GOT")
  gave - got

theorem sumAmounts_perm {l l' : List Txn} (h : l.Perm l') :
    sumAmounts l = sumAmounts l' :=
  List.Perm.sum_eq (List.Perm.map _ h)

theorem filter_and_eq_nil {l : List Txn} {p q : Txn → Bool}
    (h : l.filter p = []) : l.filter (fun t => p t && q t) = [] := by
  rw [List.filter_eq_nil_iff] at h ⊢
  intro t ht hpq
  exact h t ht (Bool.and_elim_left hpq)

/-- **C1.** For every customer, the derived balance is the sum of that
customer's `GAVE` amounts minus the sum of its `GOT` amounts; it is
invariant under permutation of the transaction table (it depends only on
the transaction set), and a customer with no transactions has balance
`0`. -/
theorem C1_balance (st st' : Store) (cid : Nat)
    (hperm : st.transactions.Perm st'.transactions) :
    get_customer_balance st cid =
        sumAmounts (st.transactions.filter fun t =>
          t.customer_id == cid && t.type == "GAVE")
      - sumAmounts (st.transactions.filter fun t =>
          t.customer_id == cid && t.type == "GOT")
    ∧ get_customer_balance st cid = get_customer_balance st' cid
    ∧ ((st.transactions.filter fun t => t.customer_id == cid) = [] →
        get_customer_balance st cid = 0) := by
  refine ⟨rfl, ?_, ?_⟩
  · unfold get_customer_balance
    rw [sumAmounts_perm (hperm.filter _), sumAmounts_perm (hperm.filter _)]
  · intro hnone
    unfold get_customer_balance
    rw [filter_and_eq_nil hnone, filter_and_eq_nil hnone]
    simp [sumAmounts]

/-- `SECRET_KEY` (`src/main.py` line 20): a hard-coded string literal in
the source, not a value generated at process start. -/
def SECRET_KEY : String := "gr6565e1rg51er5g1e1r"

/-- `ACCESS_TOKEN_EXPIRE_MINUTES` (`src/main.py` line 22): 7 days. -/
def ACCESS_TOKEN_EXPIRE_MINUTES : Nat := 10080

/-- The signing secret a given process start uses: the module-level
assignment `SECRET_KEY = "gr6565e1rg51er5g1e1r"` is evaluated at import
time, so every start yields the same constant. -/
def secretAtStart (_processStart : Nat) : String := SECRET_KEY

/-- A decoded JWT payload: the `sub` claim and the `exp` claim. -/
structure JwtPayload where
  sub : Option String
  exp : Nat
deriving Repr, DecidableEq

/-- Keyed MAC standing in for the HS256 signature: an executable hash of
the key and the signed body. -/
def mac (key : String) (body : List Char) : Nat :=
  (key.data ++ body).foldl (fun a c => (a * 131 + c.toNat + 1) % 1000003) 7

/-- Decimal digit characters of a natural number. -/
def natChars (n : Nat) : List Char := Nat.toDigits 10 n

/-- Parse a non-empty list of decimal digits. -/
def digitsToNat? (cs : List Char) : Option Nat :=
  if cs = [] then none
  else if cs.all (fun c => c.isDigit) then
    some (cs.foldl (fun a c => a * 10 + (c.toNat - 48)) 0)
  else none

/-- Serialized payload body: a subject tag (`'s'` + name, or `'n'` for a
missing `sub` claim), `';'`, then the decimal expiry. -/
def payloadBody (p : JwtPayload) : List Char :=
  (match p.sub with
   | some u => 's' :: u.data
   | none => ['n']) ++ ';' :: natChars p.exp

/-- `jwt.encode(payload, key)`: the serialized body, a dot, and the MAC
of the body under the key. -/
def jwt_encode (p : JwtPayload) (key : String) : String :=
  ⟨payloadBody p ++ '.' :: natChars (mac key (payloadBody p))⟩

/-- `create_access_token` (`src/main.py` lines 41-46): signs
`{sub = username, exp = now + 7 days}` with the given secret. -/
def create_access_token (username : String) (key : String) (now : Nat) :
    String :=
  jwt_encode ⟨some username, now + ACCESS_TOKEN_EXPIRE_MINUTES * 60⟩ key

/-- Split a character list at the first occurrence of `sep`; `none` when
`sep` does not occur. -/
def partitionChar (sep : Char) : List Char → Option (List Char × List Char)
  | [] => none
  | c :: cs =>
    if c = sep then some ([], cs)
    else
      match partitionChar sep cs with
      | none => none
      | some (a, b) => some (c :: a, b)

/-- `token.partition(" ")` (`src/main.py` line 89), keeping head and
tail: with no space in the string the tail (`param`) is empty. -/
def pyPartition (s : String) : String × String :=
  match partitionChar ' ' s.data with
  | none => (s, "")
  | some (a, b) => (⟨a⟩, ⟨b⟩)

/-- Split a token string at the last `'.'` into body and signature. -/
def rpartitionDot (s : String) : Option (List Char × List Char) :=
  match partitionChar '.' s.data.reverse with
  | none => none
  | some (a, b) => some (b.reverse, a.reverse)

/-- Parse a serialized payload body: subject tag, `';'`, decimal
expiry. -/
def parseBody (body : List Char) : Option JwtPayload :=
  match partitionChar ';' body with
  | none => none
  | some (subPart, expPart) =>
    match digitsToNat? expPart with
    | none => none
    | some e =>
      if subPart = ['n'] then some ⟨none, e⟩
      else
        match subPart with
        | 's' :: u => some ⟨some ⟨u⟩, e⟩
        | _ => none

/-- `jwt.decode(param, key)` as used at `src/main.py` line 90: any
structural failure, wrong signature, or elapsed expiry raises
`JWTError` there; the model returns `none` in exactly those cases and
the decoded payload otherwise. -/
def jwt_decode (s : String) (key : String) (now : Nat) : Option JwtPayload :=
  match rpartitionDot s with
  | none => none
  | some (body, sig) =>
    if sig = natChars (mac key body) then
      match parseBody body with
      | none => none
      | some p => if now < p.exp then some p else none
    else none

/-- The in-memory credential dictionary `users_db` (`src/main.py`
line 33): username → password-hash entries. -/
abbrev UsersDb := List (String × String)

/-- `username in users_db`: key membership. -/
def hasUser (db : UsersDb) (u : String) : Bool :=
  db.any fun e => e.1 == u

/-- An inbound HTTP request; only the cookie jar matters for the auth
gate. -/
structure Request where
  cookies : List (String × String)
deriving Repr, DecidableEq

/-- `request.cookies.get("access_token")`. -/
def cookieGet (req : Request) (name : String) : Option String :=
  (req.cookies.find? fun e => e.1 == name).map fun e => e.2

/-- `get_current_user` (`src/main.py` lines 82-100): read the
`access_token` cookie (`if not token` also rejects an empty cookie
value), split at the first space keeping the part after it, decode that
part as a JWT under the server secret, extract the `sub` claim, and
require that subject to still be a key of `users_db`. Every failure path
returns `None`; `JWTError` is caught, so nothing escapes. -/
def get_current_user (db : UsersDb) (key : String) (now : Nat)
    (req : Request) : Option String :=
  match cookieGet req "access_token" with
  | none => none
  | some token =>
    if token = "" then none
    else
      match jwt_decode (pyPartition token).2 key now with
      | none => none
      | some payload =>
        match payload.sub with
        | none => none
        | some username =>
          if hasUser db username then some username else none

/-- A demo credential store holding the seeded `admin` user. -/
def demoDb : UsersDb := [("admin", "bcrypt-hash")]

/-- A request whose `access_token` cookie carries a validly signed,
unexpired token for `admin` but with scheme prefix `"Hacker"` instead of
`"Bearer"`. -/
def hackerSchemeReq : Request :=
  ⟨[("access_token", "Hacker " ++ create_access_token "admin" SECRET_KEY 0)]⟩

/-- **C4 counterexample.** The claim requires the cookie value to parse
as a *Bearer* token for authentication to succeed, but `get_current_user`
never checks the scheme component returned by `partition(" ")`: a cookie
`"Hacker <valid token>"` authenticates as `admin` even though its scheme
is not `Bearer`. -/
theorem C4_counterexample :
    get_current_user demoDb SECRET_KEY 1 hackerSchemeReq = some "admin" ∧
    (pyPartition ("Hacker " ++ create_access_token "admin" SECRET_KEY 0)).1
      ≠ "Bearer" := by
  constructor <;> decide

/-- **C4 (amended).** `get_current_user` returns a username `u` iff the
request carries a non-trivial `access_token` cookie of the form
`"<scheme> <token>"` — the scheme prefix is stripped but *not* required
to be `Bearer` — where the token's signature verifies under the server
secret, the token is unexpired with subject `u`, and `u` is currently a
key of the credential dictionary; in every other case it returns `none`
(no exception propagates: the embedding is a total function). -/
theorem C4_authenticate (db : UsersDb) (key : String) (now : Nat)
    (req : Request) (u : String) :
    get_current_user db key now req = some u ↔
      ∃ v body sig p,
        cookieGet req "access_token" = some v ∧
        rpartitionDot (pyPartition v).2 = some (body, sig) ∧
        sig = natChars (mac key body) ∧
        parseBody body = some p ∧
        now < p.exp ∧
        p.sub = some u ∧
        hasUser db u = true := by
  constructor
  · intro h
    unfold get_current_user at h
    split at h
    · exact absurd h (by simp)
    next v hveq =>
      split at h
      · exact absurd h (by simp)
      next hv =>
        cases hd : jwt_decode (pyPartition v).2 key now with
        | none => rw [hd] at h; exact absurd h (by simp)
        | some p =>
          rw [hd] at h
          dsimp only at h
          cases hs : p.sub with
          | none => rw [hs] at h; exact absurd h (by simp)
          | some username =>
            rw [hs] at h
            dsimp only at h
            by_cases hu : hasUser db username
            · rw [if_pos hu] at h
              injection h with h'
              subst h'
              unfold jwt_decode at hd
              cases hr : rpartitionDot (pyPartition v).2 with
              | none => rw [hr] at hd; exact absurd hd (by simp)
              | some bs =>
                obtain ⟨body, sig⟩ := bs
                rw [hr] at hd
                dsimp only at hd
                by_cases hsig : sig = natChars (mac key body)
                · rw [if_pos hsig] at hd
                  cases hpb : parseBody body with
                  | none => rw [hpb] at hd; exact absurd hd (by simp)
                  | some p' =>
                    rw [hpb] at hd
                    dsimp only at hd
                    by_cases hexp : now < p'.exp
                    · rw [if_pos hexp] at hd
                      injection hd with hd'
                      subst hd'
                      exact ⟨v, body, sig, p', hveq, hr, hsig, hpb, hexp, hs, hu⟩
                    · rw [if_neg hexp] at hd; exact absurd hd (by simp)
                · rw [if_neg hsig] at hd; exact absurd hd (by simp)
            · rw [if_neg hu] at h; exact absurd h (by simp)
  · rintro ⟨v, body, sig, p, hc, hr, hsig, hpb, hexp, hs, hu⟩
    have hv : v ≠ "" := by
      rintro rfl
      have : rpartitionDot (pyPartition "").2 = none := rfl
      rw [this] at hr
      exact absurd hr (by simp)
    have hd : jwt_decode (pyPartition v).2 key now = some p := by
      simp [jwt_decode, hr, hsig, hpb, hexp]
    simp [get_current_user, hc, hv, hd, hs, hu]

/-- **C9.** `SECRET_KEY` is the hard-coded literal
`"gr6565e1rg51er5g1e1r"` at `src/main.py` line 20, so two independent
process starts use the *same* signing secret, readable from the source
— contradicting the claim that it is generated randomly per start. -/
theorem C9_secret_hardcoded :
    secretAtStart 0 = secretAtStart 1 ∧
    secretAtStart 0 = "gr6565e1rg51er5g1e1r" :=
  ⟨rfl, rfl⟩

/-- A value in a rendered CSV cell. -/
inductive Cell where
  | str (s : String)
  | num (q : ℚ)
deriving Repr, DecidableEq

/-- A rendered CSV row. -/
abbrev Row := List Cell

/-- One entry of the dashboard's `customer_list`: the customer row
enriched with `balance` and `last_activity` (`src/main.py` lines
164-173). -/
structure DashRow where
  customer : Customer
  balance : ℚ
  last_activity : Nat
deriving Repr, DecidableEq

/-- An HTTP response, at the granularity the handlers produce one. -/
inductive Response where
  | redirect (url : String) (code : Nat)
  | dashboardPage (customers : List DashRow) (total_to_collect : ℚ)
  | customerPage (customer : Customer) (transactions : List Txn)
      (balance : ℚ)
  | notFound
  | unprocessable
  | csvFile (rows : List Row)
  | dbFile
deriving Repr, DecidableEq

/-- Python truthiness of the auth result: the guards `if not user`
treat both `None` and an empty username as falsy. -/
def userFalsy : Option String → Bool
  | none => true
  | some s => s == ""

/-- Is the first list a prefix of the second? -/
def isPrefixList : List Char → List Char → Bool
  | [], _ => true
  | _ :: _, [] => false
  | a :: as, b :: bs => a == b && isPrefixList as bs

/-- Does `needle` occur as a contiguous sublist of `hay`? -/
def containsSub (needle hay : List Char) : Bool :=
  match hay with
  | [] => isPrefixList needle []
  | _ :: t => isPrefixList needle hay || containsSub needle t

/-- SQLite `LIKE '%q%'`: substring match, ASCII case-insensitive. -/
def likeContains (q s : String) : Bool :=
  containsSub (q.data.map Char.toLower) (s.data.map Char.toLower)

/-- The dashboard's customer fetch (`src/main.py` lines 153-158): the
whole table, or filtered by `q` over name or phone. -/
def dashboard_customers (st : Store) (q : Option String) : List Customer :=
  match q with
  | none => st.customers
  | some qs => st.customers.filter fun c =>
      likeContains qs c.name || likeContains qs c.phone

/-- `SELECT date FROM transactions WHERE customer_id = ? ORDER BY date
DESC LIMIT 1` (`src/main.py` line 169): the latest transaction date, or
the epoch sentinel `0` (`"1970-01-01 00:00:00"`) when there is none. -/
def last_activity (st : Store) (cid : Nat) : Nat :=
  ((st.transactions.filter fun t => t.customer_id == cid).map
    fun t => t.date).foldr max 0

/-- The `total_gave` accumulation of the dashboard loop (`src/main.py`
lines 160-175): each strictly positive balance is added; other
customers contribute nothing. -/
def dashboard_total_to_collect (st : Store) (cs : List Customer) : ℚ :=
  cs.foldl
    (fun total c =>
      let balance := get_customer_balance st c.id
      if balance > 0 then total + balance else total)
    0

/-- The dashboard's `customer_list` before sorting. -/
def dashRows (st : Store) (cs : List Customer) : List DashRow :=
  cs.map fun c => ⟨c, get_customer_balance st c.id, last_activity st c.id⟩

/-- The in-memory `customer_list.sort(...)` dispatch (`src/main.py`
lines 178-181); an unrecognized `sort` value leaves the list as
fetched. -/
def sortDash (sort : String) (l : List DashRow) : List DashRow :=
  if sort == "bal_high" then
    l.insertionSort fun a b => b.balance ≤ a.balance
  else if sort == "bal_low" then
    l.insertionSort fun a b => a.balance ≤ b.balance
  else if sort == "date_desc" then
    l.insertionSort fun a b => b.last_activity ≤ a.last_activity
  else if sort == "date_asc" then
    l.insertionSort fun a b => a.last_activity ≤ b.last_activity
  else l

/-- `dashboard` (`src/main.py` lines 145-190). -/
def dashboard (db : UsersDb) (key : String) (now : Nat) (req : Request)
    (st : Store) (q : Option String) (sort : String) : Store × Response :=
  let user := get_current_user db key now req
  if userFalsy user then (st, .redirect "/login" 307)
  else
    let customers := dashboard_customers st q
    (st, .dashboardPage (sortDash sort (dashRows st customers))
      (dashboard_total_to_collect st customers))

/-- `add_customer` (`src/main.py` lines 192-199): auth guard, then an
`INSERT` allocating the next customer id. -/
def add_customer (db : UsersDb) (key : String) (now : Nat) (req : Request)
    (st : Store) (name phone : String) : Store × Response :=
  if userFalsy (get_current_user db key now req) then
    (st, .redirect "/login" 307)
  else
    ({ st with
        customers := st.customers ++ [⟨st.nextCustomerId, name, phone⟩],
        nextCustomerId := st.nextCustomerId + 1 },
      .redirect "/" 303)

/-- `SELECT * FROM customers WHERE id = ?`. -/
def findCustomer (st : Store) (cid : Nat) : Option Customer :=
  st.customers.find? fun c => c.id == cid

/-- "dated at least as late": the order behind `ORDER BY date DESC`. -/
def dateGe (a b : Txn) : Prop := b.date ≤ a.date

instance : DecidableRel dateGe := fun a b => Nat.decLe b.date a.date

instance : IsTotal Txn dateGe := ⟨fun a b => le_total b.date a.date⟩

instance : IsTrans Txn dateGe := ⟨fun _ _ _ hab hbc => le_trans hbc hab⟩

/-- `SELECT * FROM transactions WHERE customer_id = ? ORDER BY date
DESC` (`src/main.py` lines 213 and 286). -/
def list_for_customer (st : Store) (cid : Nat) : List Txn :=
  (st.transactions.filter fun t => t.customer_id == cid).insertionSort dateGe

/-- `view_customer` (`src/main.py` lines 201-224): 404 when the id is
unknown, otherwise the detail page with history and balance. -/
def view_customer (db : UsersDb) (key : String) (now : Nat) (req : Request)
    (st : Store) (customer_id : Nat) : Store × Response :=
  if userFalsy (get_current_user db key now req) then
    (st, .redirect "/login" 307)
  else
    match findCustomer st customer_id with
    | none => (st, .notFound)
    | some customer =>
      (st, .customerPage customer (list_for_customer st customer_id)
        (get_customer_balance st customer_id))

/-- `add_transaction` handler body (`src/main.py` lines 226-233): after
form parsing succeeds, the row is inserted with no check of amount
sign, kind string, or customer existence (the schema's `FOREIGN KEY`
clause is never enabled with `PRAGMA foreign_keys`, so SQLite does not
enforce it). The `date` column defaults to the current timestamp. -/
def add_transaction (db : UsersDb) (key : String) (now : Nat)
    (req : Request) (st : Store) (customer_id : Nat) (amount : ℚ)
    (type desc : String) : Store × Response :=
  if userFalsy (get_current_user db key now req) then
    (st, .redirect "/login" 307)
  else
    ({ st with
        transactions := st.transactions ++
          [⟨st.nextTxnId, customer_id, amount, type, desc, now⟩],
        nextTxnId := st.nextTxnId + 1 },
      .redirect ("/customer/" ++ toString customer_id) 303)

/-- The `add_transaction` endpoint including FastAPI's form coercion
(`customer_id : int = Form(...)`, `amount : float = Form(...)`): a
field that fails numeric parsing yields a 422 before the handler runs;
parsed values are passed through unchanged. -/
def add_transaction_endpoint (db : UsersDb) (key : String) (now : Nat)
    (req : Request) (st : Store) (customer_id? : Option Nat)
    (amount? : Option ℚ) (type desc : String) : Store × Response :=
  match customer_id?, amount? with
  | some cid, some amount =>
    add_transaction db key now req st cid amount type desc
  | _, _ => (st, .unprocessable)

/-- `edit_transaction` (`src/main.py` lines 235-242): `UPDATE
transactions SET amount, description, type WHERE id = ?`, then an
unconditional redirect to the form-supplied customer page (no check
that the transaction exists). -/
def edit_transaction (db : UsersDb) (key : String) (now : Nat)
    (req : Request) (st : Store) (transaction_id customer_id : Nat)
    (amount : ℚ) (desc type' : String) : Store × Response :=
  if userFalsy (get_current_user db key now req) then
    (st, .redirect "/login" 307)
  else
    ({ st with
        transactions := st.transactions.map fun t =>
          if t.id == transaction_id then
            { t with amount := amount, description := desc, type := type' }
          else t },
      .redirect ("/customer/" ++ toString customer_id) 303)

/-- `delete_transaction` (`src/main.py` lines 244-255): look up the
owning customer; when found, delete the row and redirect to that
customer's page; otherwise fall through to a redirect to `/`. -/
def delete_transaction (db : UsersDb) (key : String) (now : Nat)
    (req : Request) (st : Store) (transaction_id : Nat) :
    Store × Response :=
  if userFalsy (get_current_user db key now req) then
    (st, .redirect "/login" 307)
  else
    match st.transactions.find? (fun t => t.id == transaction_id) with
    | some row =>
      ({ st with
          transactions := st.transactions.filter fun t =>
            !(t.id == transaction_id) },
        .redirect ("/customer/" ++ toString row.customer_id) 303)
    | none => (st, .redirect "/" 303)

/-- `edit_customer` (`src/main.py` lines 257-264): `UPDATE customers SET
name, phone WHERE id = ?`, then an unconditional redirect. -/
def edit_customer (db : UsersDb) (key : String) (now : Nat)
    (req : Request) (st : Store) (customer_id : Nat)
    (name phone : String) : Store × Response :=
  if userFalsy (get_current_user db key now req) then
    (st, .redirect "/login" 307)
  else
    ({ st with
        customers := st.customers.map fun c =>
          if c.id == customer_id then { c with name := name, phone := phone }
          else c },
      .redirect ("/customer/" ++ toString customer_id) 303)

/-- A primitive statement executed on the open connection inside
`delete_customer`. -/
inductive DbOp where
  | deleteTxnsFor (cid : Nat)
  | deleteCustomer (cid : Nat)
  | commit
deriving Repr, DecidableEq

/-- Effect of one statement on the connection's working state; `commit`
leaves the data unchanged — it only publishes it (see `runOps`). -/
def applyOp (st : Store) : DbOp → Store
  | .deleteTxnsFor cid =>
    { st with
        transactions := st.transactions.filter fun t =>
          !(t.customer_id == cid) }
  | .deleteCustomer cid =>
    { st with customers := st.customers.filter fun c => !(c.id == cid) }
  | .commit => st

/-- Run statements over a `(working, durable)` pair: the storage engine
batches uncommitted statements in one implicit transaction, and the
durable state advances only at `commit` — a crash after any prefix
leaves the durable component of that prefix's run. -/
def runOps (start : Store) (ops : List DbOp) : Store × Store :=
  ops.foldl
    (fun s op =>
      match op with
      | .commit => (s.1, s.1)
      | _ => (applyOp s.1 op, s.2))
    (start, start)

/-- The statement sequence of `delete_customer` (`src/main.py` lines
270-273): delete the customer's transactions, delete the customer row,
commit once. -/
def delete_customer_ops (cid : Nat) : List DbOp :=
  [.deleteTxnsFor cid, .deleteCustomer cid, .commit]

/-- `delete_customer` (`src/main.py` lines 266-274): the new store is
the durable state after running the statement sequence. -/
def delete_customer (db : UsersDb) (key : String) (now : Nat)
    (req : Request) (st : Store) (customer_id : Nat) : Store × Response :=
  if userFalsy (get_current_user db key now req) then
    (st, .redirect "/login" 307)
  else
    ((runOps st (delete_customer_ops customer_id)).2, .redirect "/" 303)

/-- One CSV detail row (`src/main.py` line 294). -/
def statementRow (t : Txn) : Row :=
  [.str (toString t.date), .str t.description, .str t.type, .num t.amount,
    .str (if t.type == "GAVE" then "You Gave" else "You Received")]

/-- The rows the statement writer emits (`src/main.py` lines 292-296):
header, one detail row per transaction in the order given, an empty
spacer row, and the net-balance summary row. -/
def statement_rows (transactions : List Txn) (balance : ℚ) : List Row :=
  [Cell.str "Date", .str "Description", .str "Type", .str "Amount",
      .str "Balance Context"] ::
    (transactions.map statementRow ++
      [[], [.str "", .str "", .str "NET BALANCE", .num balance]])

/-- `download_statement` (`src/main.py` lines 276-300): 404 for an
unknown id; otherwise stream the CSV built from `list_for_customer`
order and the derived balance. -/
def download_statement (db : UsersDb) (key : String) (now : Nat)
    (req : Request) (st : Store) (customer_id : Nat) : Store × Response :=
  if userFalsy (get_current_user db key now req) then
    (st, .redirect "/login" 307)
  else
    match findCustomer st customer_id with
    | none => (st, .notFound)
    | some _ =>
      (st, .csvFile (statement_rows (list_for_customer st customer_id)
        (get_customer_balance st customer_id)))

/-- `download_db` (`src/main.py` lines 302-308): authenticated requests
receive the raw database file (which exists once the app started). -/
def download_db (db : UsersDb) (key : String) (now : Nat) (req : Request)
    (st : Store) : Store × Response :=
  if userFalsy (get_current_user db key now req) then
    (st, .redirect "/login" 307)
  else (st, .dbFile)

/-- `restore_db` (`src/main.py` lines 310-331): auth guard first; a
filename not ending in `.db` is silently ignored; otherwise the
uploaded content replaces the database wholesale. -/
def restore_db (db : UsersDb) (key : String) (now : Nat) (req : Request)
    (st : Store) (filename : String) (content : Store) :
    Store × Response :=
  if userFalsy (get_current_user db key now req) then
    (st, .redirect "/login" 307)
  else if !(filename.endsWith ".db") then (st, .redirect "/" 303)
  else (content, .redirect "/" 303)

/-- A request authenticated as `admin` through a well-formed `Bearer`
cookie issued at time 0. -/
def authedReq : Request :=
  ⟨[("access_token", "Bearer " ++ create_access_token "admin" SECRET_KEY 0)]⟩

/-- A small store: one customer with two transactions. -/
def demoStore : Store :=
  ⟨[⟨1, "Asha", "555-1111"⟩],
    [⟨1, 1, 100, "GAVE", "", 5⟩, ⟨2, 1, 40, "GOT", "", 9⟩], 2, 3⟩

/-- The store of a freshly initialized database. -/
def emptyStore : Store := ⟨[], [], 1, 1⟩

theorem foldl_total_eq (st : Store) (cs : List Customer) (init : ℚ) :
    cs.foldl
      (fun total c =>
        let balance := get_customer_balance st c.id
        if balance > 0 then total + balance else total)
      init
    = init + (cs.map fun c => max (get_customer_balance st c.id) 0).sum := by
  induction cs generalizing init with
  | nil => simp
  | cons c cs ih =>
    simp only [List.foldl_cons, List.map_cons, List.sum_cons]
    rw [ih]
    by_cases h : get_customer_balance st c.id > 0
    · simp only [if_pos h, max_eq_left h.le]; ring
    · simp only [if_neg h, max_eq_right (not_lt.mp h)]; ring

theorem total_to_collect_eq (st : Store) (cs : List Customer) :
    dashboard_total_to_collect st cs =
      (cs.map fun c => max (get_customer_balance st c.id) 0).sum := by
  unfold dashboard_total_to_collect
  rw [foldl_total_eq]
  ring

/-- **C2.** On an authenticated dashboard request, `total_to_collect` is
the sum over the listed customers of `max(balance(c), 0)`: positive
balances contribute themselves, zero or negative balances contribute
zero. -/
theorem C2_total_to_collect (db : UsersDb) (key : String) (now : Nat)
    (req : Request) (st : Store) (q : Option String) (sort : String)
    (u : String) (hauth : get_current_user db key now req = some u)
    (hu : u ≠ "") :
    (dashboard db key now req st q sort).2 =
      Response.dashboardPage
        (sortDash sort (dashRows st (dashboard_customers st q)))
        (((dashboard_customers st q).map fun c =>
          max (get_customer_balance st c.id) 0).sum) := by
  have hf : userFalsy (get_current_user db key now req) = false := by
    rw [hauth]; simpa [userFalsy] using hu
  simp [dashboard, hf, total_to_collect_eq]

/-- Closed instance of `C2_total_to_collect` on a concrete store. -/
theorem C2_total_to_collect_witness :
    get_current_user demoDb SECRET_KEY 1 authedReq = some "admin" ∧
    (dashboard demoDb SECRET_KEY 1 authedReq demoStore none "date_desc").2 =
      Response.dashboardPage
        (sortDash "date_desc" (dashRows demoStore
          (dashboard_customers demoStore none)))
        (((dashboard_customers demoStore none).map fun c =>
          max (get_customer_balance demoStore c.id) 0).sum) := by
  have h : get_current_user demoDb SECRET_KEY 1 authedReq = some "admin" := by
    decide
  exact ⟨h, C2_total_to_collect demoDb SECRET_KEY 1 authedReq demoStore
    none "date_desc" "admin" h (by decide)⟩

/-- **C3.** When authentication yields no identity, every protected
handler leaves the store untouched and answers with a redirect to the
login page: the auth guard runs before any store mutation. -/
theorem C3_auth_gate (db : UsersDb) (key : String) (now : Nat)
    (req : Request) (st : Store)
    (hnone : get_current_user db key now req = none) :
    (∀ q sort, dashboard db key now req st q sort =
      (st, .redirect "/login" 307))
    ∧ (∀ name phone, add_customer db key now req st name phone =
      (st, .redirect "/login" 307))
    ∧ (∀ cid, view_customer db key now req st cid =
      (st, .redirect "/login" 307))
    ∧ (∀ cid amount ty d, add_transaction db key now req st cid amount ty d =
      (st, .redirect "/login" 307))
    ∧ (∀ tid cid amount d ty,
      edit_transaction db key now req st tid cid amount d ty =
        (st, .redirect "/login" 307))
    ∧ (∀ tid, delete_transaction db key now req st tid =
      (st, .redirect "/login" 307))
    ∧ (∀ cid name phone, edit_customer db key now req st cid name phone =
      (st, .redirect "/login" 307))
    ∧ (∀ cid, delete_customer db key now req st cid =
      (st, .redirect "/login" 307))
    ∧ (∀ cid, download_statement db key now req st cid =
      (st, .redirect "/login" 307))
    ∧ (download_db db key now req st = (st, .redirect "/login" 307))
    ∧ (∀ fn content, restore_db db key now req st fn content =
      (st, .redirect "/login" 307)) := by
  have hf : userFalsy (get_current_user db key now req) = true := by
    rw [hnone]; rfl
  refine ⟨fun q sort => ?_, fun name phone => ?_, fun cid => ?_,
    fun cid amount ty d => ?_, fun tid cid amount d ty => ?_, fun tid => ?_,
    fun cid name phone => ?_, fun cid => ?_, fun cid => ?_, ?_,
    fun fn content => ?_⟩ <;>
  simp [dashboard, add_customer, view_customer, add_transaction,
    edit_transaction, delete_transaction, edit_customer, delete_customer,
    download_statement, download_db, restore_db, hf]

/-- Closed instance of `C3_auth_gate`: a cookie-less request leaves a
concrete store untouched and is sent to the login page. -/
theorem C3_auth_gate_witness :
    get_current_user demoDb SECRET_KEY 5 ⟨[]⟩ = none ∧
    add_customer demoDb SECRET_KEY 5 ⟨[]⟩ demoStore "Noor" "555-2222" =
      (demoStore, .redirect "/login" 307) := by
  have h : get_current_user demoDb SECRET_KEY 5 ⟨[]⟩ = none := rfl
  exact ⟨h,
    (C3_auth_gate demoDb SECRET_KEY 5 ⟨[]⟩ demoStore h).2.1 "Noor" "555-2222"⟩

/-- The store after `delete_customer`'s cascade: the customer row and
all of its transactions are gone. -/
def cascadeDeleted (st : Store) (cid : Nat) : Store :=
  { st with
      customers := st.customers.filter fun c => !(c.id == cid),
      transactions := st.transactions.filter fun t =>
        !(t.customer_id == cid) }

/-- **C5.** The cascade in `delete_customer` is atomic: both `DELETE`
statements run inside one implicit transaction with a single `commit`,
so after any prefix of the statement sequence the durable state is
either the original store or the fully-deleted store — no reachable
durable state has the customer gone with transactions left (or the
reverse) — the full run lands on the fully-deleted store, and that
store holds neither the customer row nor any transaction of that
customer. -/
theorem C5_delete_cascade_atomic (st : Store) (cid : Nat) (n : Nat) :
    ((runOps st ((delete_customer_ops cid).take n)).2 = st ∨
      (runOps st ((delete_customer_ops cid).take n)).2 =
        cascadeDeleted st cid)
    ∧ (runOps st (delete_customer_ops cid)).2 = cascadeDeleted st cid
    ∧ (∀ c ∈ (cascadeDeleted st cid).customers, c.id ≠ cid)
    ∧ (∀ t ∈ (cascadeDeleted st cid).transactions, t.customer_id ≠ cid)
    ∧ (∀ db key now req (u : String),
        get_current_user db key now req = some u → u ≠ "" →
        delete_customer db key now req st cid =
          (cascadeDeleted st cid, .redirect "/" 303)) := by
  refine ⟨?_, rfl, ?_, ?_, ?_⟩
  · match n with
    | 0 => exact Or.inl rfl
    | 1 => exact Or.inl rfl
    | 2 => exact Or.inl rfl
    | (m + 3) =>
      refine Or.inr ?_
      simp only [delete_customer_ops, List.take_succ_cons, List.take_nil]
      rfl
  · intro c hc
    rw [cascadeDeleted, List.mem_filter] at hc
    simpa using hc.2
  · intro t ht
    rw [cascadeDeleted, List.mem_filter] at ht
    simpa using ht.2
  · intro db key now req u hauth hu
    have hcond : ¬ userFalsy (get_current_user db key now req) = true := by
      rw [hauth]; simpa [userFalsy] using hu
    unfold delete_customer
    rw [if_neg hcond]
    rfl

/-- Closed instance of `C5_delete_cascade_atomic`: deleting customer 1
from the demo store removes the row and both transactions in one
step. -/
theorem C5_delete_cascade_atomic_witness :
    get_current_user demoDb SECRET_KEY 1 authedReq = some "admin" ∧
    delete_customer demoDb SECRET_KEY 1 authedReq demoStore 1 =
      (cascadeDeleted demoStore 1, .redirect "/" 303) := by
  have h : get_current_user demoDb SECRET_KEY 1 authedReq = some "admin" := by
    decide
  exact ⟨h, (C5_delete_cascade_atomic demoStore 1 0).2.2.2.2
    demoDb SECRET_KEY 1 authedReq "admin" h (by decide)⟩

/-- Closed instance of `C1_balance`: the demo store's balance for
customer 1 is `100 - 40 = 60`, also after reversing the transaction
list. -/
theorem C1_balance_witness :
    demoStore.transactions.Perm
      (Store.mk demoStore.customers demoStore.transactions.reverse 2 3).transactions
    ∧ get_customer_balance demoStore 1 = 60
    ∧ get_customer_balance demoStore 1 =
        get_customer_balance
          (Store.mk demoStore.customers demoStore.transactions.reverse 2 3) 1 := by
  have hp : demoStore.transactions.Perm
      (Store.mk demoStore.customers demoStore.transactions.reverse 2 3).transactions :=
    (List.reverse_perm _).symm
  refine ⟨hp, ?_,
    (C1_balance demoStore
      (Store.mk demoStore.customers demoStore.transactions.reverse 2 3) 1 hp).2.1⟩
  simp [get_customer_balance, demoStore, sumAmounts, List.filter_cons]
  norm_num

/-- **C6 counterexample.** An authenticated `add_transaction` request
whose parsed amount is `-5` (negative) and whose kind is `"BANANA"`
(neither `GAVE` nor `GOT`) — invalid input under the claim — is not
rejected: the row is inserted verbatim into the store. -/
theorem C6_counterexample :
    ((-5 : ℚ) < 0 ∧ "BANANA" ≠ "GAVE" ∧ "BANANA" ≠ "GOT") ∧
    (add_transaction_endpoint demoDb SECRET_KEY 1 authedReq demoStore
        (some 1) (some (-5)) "BANANA" "").1.transactions =
      demoStore.transactions ++ [⟨3, 1, -5, "BANANA", "", 1⟩] := by
  constructor
  · refine ⟨by norm_num, by decide, by decide⟩
  · decide

/-- **C6 (amended).** The only input validation on transaction creation
is FastAPI's numeric coercion of the form fields: a request whose
`amount` (or `customer_id`) fails to parse is rejected with a 422 and
no transaction is inserted; any successfully parsed amount — negative
included — and any kind string whatsoever are accepted, and the row is
inserted unchanged. -/
theorem C6_validation (db : UsersDb) (key : String) (now : Nat)
    (req : Request) (st : Store) (cid? : Option Nat) (amount? : Option ℚ)
    (ty d : String) :
    (amount? = none ∨ cid? = none →
      add_transaction_endpoint db key now req st cid? amount? ty d =
        (st, .unprocessable))
    ∧ (∀ cid amount, cid? = some cid → amount? = some amount →
        userFalsy (get_current_user db key now req) = false →
        add_transaction_endpoint db key now req st cid? amount? ty d =
          ({ st with
              transactions := st.transactions ++
                [⟨st.nextTxnId, cid, amount, ty, d, now⟩],
              nextTxnId := st.nextTxnId + 1 },
            .redirect ("/customer/" ++ toString cid) 303)) := by
  constructor
  · rintro (rfl | rfl)
    · cases cid? <;> rfl
    · cases amount? <;> rfl
  · rintro cid amount rfl rfl hf
    simp [add_transaction_endpoint, add_transaction, hf]

/-- Closed instance of `C6_validation`: a parsed, authenticated request
inserts exactly one new row. -/
theorem C6_validation_witness :
    (some (1 : Nat) = some 1 ∧ some (40 : ℚ) = some 40 ∧
      userFalsy (get_current_user demoDb SECRET_KEY 1 authedReq) = false) ∧
    add_transaction_endpoint demoDb SECRET_KEY 1 authedReq demoStore
        (some 1) (some 40) "GOT" "" =
      ({ demoStore with
          transactions := demoStore.transactions ++ [⟨3, 1, 40, "GOT", "", 1⟩],
          nextTxnId := 4 },
        .redirect ("/customer/" ++ toString 1) 303) := by
  have hf : userFalsy (get_current_user demoDb SECRET_KEY 1 authedReq) = false := by
    decide
  exact ⟨⟨rfl, rfl, hf⟩,
    (C6_validation demoDb SECRET_KEY 1 authedReq demoStore
      (some 1) (some 40) "GOT" "").2 1 40 rfl rfl hf⟩

/-- **C7 (code behavior at the failing input).** The `transactions`
schema declares `FOREIGN KEY (customer_id) REFERENCES customers (id)`,
but the app never issues `PRAGMA foreign_keys = ON` (SQLite leaves the
constraint unenforced by default) and `add_transaction` performs no
existence check: inserting a transaction for customer id 999 succeeds
on a store with no customers at all. -/
theorem C7_fk_not_enforced :
    emptyStore.customers = [] ∧
    (add_transaction demoDb SECRET_KEY 1 authedReq emptyStore
        999 10 "GAVE" "").1.transactions =
      [⟨1, 999, 10, "GAVE", "", 1⟩] := by
  exact ⟨rfl, by decide⟩

theorem map_update_txn_noop {l : List Txn} {tid : Nat} {f : Txn → Txn}
    (h : ∀ t ∈ l, t.id ≠ tid) :
    (l.map fun t => if t.id == tid then f t else t) = l := by
  conv_rhs => rw [← List.map_id l]
  refine List.map_congr_left fun t ht => ?_
  simp [h t ht]

theorem map_update_cust_noop {l : List Customer} {cid : Nat}
    {f : Customer → Customer} (h : ∀ c ∈ l, c.id ≠ cid) :
    (l.map fun c => if c.id == cid then f c else c) = l := by
  conv_rhs => rw [← List.map_id l]
  refine List.map_congr_left fun c hc => ?_
  simp [h c hc]

/-- **C8 counterexample.** `demoStore` has no transaction with id 7,
yet an authenticated `edit_transaction` naming id 7 answers with a
redirect (303) to the form-supplied customer page — not with a
not-found response. -/
theorem C8_counterexample :
    (∀ t ∈ demoStore.transactions, t.id ≠ 7) ∧
    edit_transaction demoDb SECRET_KEY 1 authedReq demoStore 7 5 3 "" "GAVE" =
      (demoStore, .redirect "/customer/5" 303) ∧
    Response.redirect "/customer/5" 303 ≠ Response.notFound := by
  refine ⟨by decide, by decide, by decide⟩

/-- **C8 (amended).** For authenticated requests naming an unknown id,
only the view paths (`view_customer`, `download_statement`) produce a
not-found response, leaving the store unchanged; the edit and delete
paths answer with a redirect instead. The edit and delete paths leave
the store unchanged too — except `delete_customer`, whose cascade
`DELETE FROM transactions WHERE customer_id = ?` still runs and removes
any orphan transactions referencing the unknown customer id (orphans
are reachable because the foreign key is unenforced); its result store
is exactly the input store minus those orphans, so it is unchanged
precisely when no orphan exists. -/
theorem C8_unknown_id (db : UsersDb) (key : String) (now : Nat)
    (req : Request) (st : Store) (u : String)
    (hauth : get_current_user db key now req = some u) (hu : u ≠ "") :
    (∀ cid, (∀ c ∈ st.customers, c.id ≠ cid) →
      view_customer db key now req st cid = (st, .notFound)
      ∧ download_statement db key now req st cid = (st, .notFound))
    ∧ (∀ tid cid amount d ty, (∀ t ∈ st.transactions, t.id ≠ tid) →
        edit_transaction db key now req st tid cid amount d ty =
          (st, .redirect ("/customer/" ++ toString cid) 303))
    ∧ (∀ tid, (∀ t ∈ st.transactions, t.id ≠ tid) →
        delete_transaction db key now req st tid = (st, .redirect "/" 303))
    ∧ (∀ cid name phone, (∀ c ∈ st.customers, c.id ≠ cid) →
        edit_customer db key now req st cid name phone =
          (st, .redirect ("/customer/" ++ toString cid) 303))
    ∧ (∀ cid, (∀ c ∈ st.customers, c.id ≠ cid) →
        delete_customer db key now req st cid =
          ({ st with
              transactions := st.transactions.filter fun t =>
                !(t.customer_id == cid) },
            .redirect "/" 303)) := by
  have hf : userFalsy (get_current_user db key now req) = false := by
    rw [hauth]; simpa [userFalsy] using hu
  have hfind : ∀ cid, (∀ c ∈ st.customers, c.id ≠ cid) →
      findCustomer st cid = none := by
    intro cid h
    unfold findCustomer
    exact List.find?_eq_none.mpr fun c hc => by simp [h c hc]
  have hcond : ¬ userFalsy (get_current_user db key now req) = true := by
    simp [hf]
  refine ⟨fun cid h => ⟨?_, ?_⟩, fun tid cid amount d ty h => ?_,
    fun tid h => ?_, fun cid name phone h => ?_, fun cid hc => ?_⟩
  · simp [view_customer, hf, hfind cid h]
  · simp [download_statement, hf, hfind cid h]
  · unfold edit_transaction
    rw [if_neg hcond, map_update_txn_noop h]
  · have hnone : st.transactions.find? (fun t => t.id == tid) = none :=
      List.find?_eq_none.mpr fun t ht => by simp [h t ht]
    simp [delete_transaction, hf, hnone]
  · unfold edit_customer
    rw [if_neg hcond, map_update_cust_noop h]
  · have h2 : st.customers.filter (fun c => !(c.id == cid)) = st.customers :=
      List.filter_eq_self.mpr fun c hcm => by simp [hc c hcm]
    simp [delete_customer, hf, runOps, delete_customer_ops, applyOp, h2]

/-- A store holding an orphan transaction: its `customer_id` 999 names
no customer row (reachable through the unenforced foreign key). -/
def orphanStore : Store := ⟨[], [⟨1, 999, 10, "GAVE", "", 1⟩], 1, 2⟩

/-- Closed instance of `C8_unknown_id`: customer id 42 is unknown to
`demoStore`, so the detail view 404s with the store untouched; and on
`orphanStore` an authenticated `delete_customer` naming the unknown
customer id 999 still deletes the orphan transaction — the store
changes. -/
theorem C8_unknown_id_witness :
    (get_current_user demoDb SECRET_KEY 1 authedReq = some "admin" ∧
      (∀ c ∈ demoStore.customers, c.id ≠ 42) ∧
      (∀ c ∈ orphanStore.customers, c.id ≠ 999)) ∧
    view_customer demoDb SECRET_KEY 1 authedReq demoStore 42 =
      (demoStore, .notFound) ∧
    delete_customer demoDb SECRET_KEY 1 authedReq orphanStore 999 =
      ({ orphanStore with
          transactions := orphanStore.transactions.filter fun t =>
            !(t.customer_id == 999) },
        .redirect "/" 303) ∧
    orphanStore.transactions.filter (fun t => !(t.customer_id == 999)) =
      [] := by
  have h : get_current_user demoDb SECRET_KEY 1 authedReq = some "admin" := by
    decide
  have hc : ∀ c ∈ demoStore.customers, c.id ≠ 42 := by decide
  have ho : ∀ c ∈ orphanStore.customers, c.id ≠ 999 := by decide
  exact ⟨⟨h, hc, ho⟩,
    ((C8_unknown_id demoDb SECRET_KEY 1 authedReq demoStore "admin" h
      (by decide)).1 42 hc).1,
    (C8_unknown_id demoDb SECRET_KEY 1 authedReq orphanStore "admin" h
      (by decide)).2.2.2.2 999 ho,
    by decide⟩

/-- The net-balance summary marker: a four-cell row whose third cell is
the `"NET BALANCE"` label. -/
def isSummaryRow : Row → Bool
  | [_, _, Cell.str l, _] => l == "NET BALANCE"
  | _ => false

theorem statement_filter_summary (txs : List Txn) (b : ℚ) :
    (statement_rows txs b).filter isSummaryRow =
      [[Cell.str "", .str "", .str "NET BALANCE", .num b]] := by
  have hdetail : (txs.map statementRow).filter isSummaryRow = [] :=
    List.filter_eq_nil_iff.mpr (by
      intro r hr
      rw [List.mem_map] at hr
      obtain ⟨t, _, rfl⟩ := hr
      simp [statementRow, isSummaryRow])
  unfold statement_rows
  rw [List.filter_cons, List.filter_append, hdetail]
  rfl

/-- **C10.** For an authenticated request on an existing customer, the
statement export is the header row, then exactly one detail row per
transaction — the rows are `statementRow` mapped over
`list_for_customer`'s output in that exact order (no independent
re-sort), and `list_for_customer` is sorted descending by date — then a
spacer and exactly one summary row holding the net balance. -/
theorem C10_statement (db : UsersDb) (key : String) (now : Nat)
    (req : Request) (st : Store) (u : String) (cid : Nat) (c : Customer)
    (hauth : get_current_user db key now req = some u) (hu : u ≠ "")
    (hfind : findCustomer st cid = some c) :
    download_statement db key now req st cid =
      (st, .csvFile (statement_rows (list_for_customer st cid)
        (get_customer_balance st cid)))
    ∧ statement_rows (list_for_customer st cid)
        (get_customer_balance st cid) =
        [Cell.str "Date", .str "Description", .str "Type", .str "Amount",
            .str "Balance Context"] ::
          ((list_for_customer st cid).map statementRow ++
            [[], [.str "", .str "", .str "NET BALANCE",
              .num (get_customer_balance st cid)]])
    ∧ ((list_for_customer st cid).map statementRow).length =
        (st.transactions.filter fun t => t.customer_id == cid).length
    ∧ List.Sorted dateGe (list_for_customer st cid)
    ∧ (statement_rows (list_for_customer st cid)
        (get_customer_balance st cid)).filter isSummaryRow =
        [[.str "", .str "", .str "NET BALANCE",
          .num (get_customer_balance st cid)]] := by
  have hf : userFalsy (get_current_user db key now req) = false := by
    rw [hauth]; simpa [userFalsy] using hu
  refine ⟨?_, rfl, ?_, ?_, statement_filter_summary _ _⟩
  · simp [download_statement, hf, hfind]
  · simp [list_for_customer, List.length_insertionSort, List.length_map]
  · exact List.sorted_insertionSort dateGe _

/-- Closed instance of `C10_statement` on the demo store. -/
theorem C10_statement_witness :
    (get_current_user demoDb SECRET_KEY 1 authedReq = some "admin" ∧
      findCustomer demoStore 1 = some ⟨1, "Asha", "555-1111"⟩) ∧
    download_statement demoDb SECRET_KEY 1 authedReq demoStore 1 =
      (demoStore, .csvFile (statement_rows (list_for_customer demoStore 1)
        (get_customer_balance demoStore 1))) := by
  have h : get_current_user demoDb SECRET_KEY 1 authedReq = some "admin" := by
    decide
  have hc : findCustomer demoStore 1 = some ⟨1, "Asha", "555-1111"⟩ := by
    decide
  exact ⟨⟨h, hc⟩,
    (C10_statement demoDb SECRET_KEY 1 authedReq demoStore "admin" 1 _ h
      (by decide) hc).1⟩

end Khatabook
